import Mathlib

/-!
Shallow embedding of `src/wetbulb_warnings.py`: the aggregation, wet-bulb
calculation and risk-classification pipeline of the wetbulb-warnings
dashboard, together with theorems settling the specification claims.

Numbers that the Python code manipulates as floats are modelled as `ℚ`
where only field arithmetic and comparisons occur (aggregation,
classification) and as `ℝ` where the code calls transcendental functions
(`math.atan`, `math.sqrt` in `calc_wetbulb`).  A Python expression that can
raise is modelled with `Except`/`Option`; NumPy's NaN (the value
`np.mean` returns on an empty list, with only a warning) is modelled by a
dedicated constructor `NpFloat.nan`, since it is a returned value and not
an exception.
-/

namespace WetbulbWarnings

/-- `THRESHOLD_DANGER = 35` (line 11 of the source). -/
def THRESHOLD_DANGER : ℚ := 35

/-- `THRESHOLD_WARNING = 31` (line 12 of the source). -/
def THRESHOLD_WARNING : ℚ := 31

/-- The `status_message` list (lines 17-42): one `(headline, icon, advice)`
triple per tier, positionally indexed by the tier's enum value. -/
def status_message : List (String × String × String) :=
  [ ("Current environment might be dangerous.", "🚨",
      "\n            Some actions you can take to stay safe:\n            - Move to a location with air conditioning. If you are outdoors, stay under any available shelter.\n            - Stay hydrated.\n            - Observe your body for symptoms of discomfort and consult a doctor if you feel unwell.\n        "),
    ("Current environment might be unsafe.", "⚠️",
      "\n            The current Wet-Bulb temperature poses a high risk of heat stress. Consider these actions to minimise your risk of injury:\n            - Avoid outdoor activity and stay under shelter.\n            - Observe your body for discomfort.\n            - Hydrate frequently. \n        "),
    ("Current environment is safe.", "✅",
      "\n            The current Wet-Bulb temperature puts you at low risk of injury. Even so, stay on the alert for any signs of discomfort.\n            - Hydrate regularly.\n            - Take shelter in between prolonged outdoor activity.\n        ") ]

/-- The `Status` enum (lines 44-48). -/
inductive Status where
  | DANGER
  | WARNING
  | SAFE
  | NONE
  deriving DecidableEq, Repr

/-- The integer payload of each `Status` member (`status.value` in Python). -/
def Status.value : Status → Nat
  | .DANGER => 0
  | .WARNING => 1
  | .SAFE => 2
  | .NONE => 3

/-- `check_status` (lines 102-125).  `status` is first bound to the
`Status.NONE` placeholder and then reassigned by the `if`/`elif`/`else`
chain; the guidance lookup `status_message[status.value]` is a fallible
positional indexing, modelled with `List.getElem?` (Python raises
`IndexError` out of bounds, here `none`). -/
def check_status (wb_temp : ℚ) : Status × Option (String × String × String) :=
  let status : Status := Status.NONE
  let status : Status :=
    if THRESHOLD_DANGER ≤ wb_temp then Status.DANGER
    else if THRESHOLD_WARNING ≤ wb_temp then Status.WARNING
    else Status.SAFE
  (status, status_message[status.value]?)

/-- One station's reading inside a batch: a `{station_id, value}` record. -/
structure Reading where
  station_id : String
  value : ℚ
  deriving DecidableEq, Repr

/-- One dated batch of an API response.  `readings = none` models a batch
dict with no `"readings"` key (accessing it raises `KeyError`). -/
structure Batch where
  timestamp : String
  readings : Option (List Reading)
  deriving DecidableEq, Repr

/-- A parsed JSON API response.  `items = none` models a response dict with
no `"items"` key: `resp.get("items", -1)` then yields `-1`, and `(-1)[0]`
raises `TypeError`. -/
structure Response where
  items : Option (List Batch)
  deriving DecidableEq, Repr

/-- A NumPy float that is either an ordinary number or NaN. -/
inductive NpFloat where
  | nan
  | val (q : ℚ)
  deriving DecidableEq, Repr

/-- The Python exceptions `agg_values` can raise. -/
inductive AggError where
  | typeError
  | indexError
  | keyError
  deriving DecidableEq, Repr

/-- `np.mean` on a list of numbers: the arithmetic mean, except that the
mean of an empty list is NaN (NumPy emits a `RuntimeWarning` and performs
the 0/0 division, producing NaN — it does not raise). -/
def np_mean (l : List ℚ) : NpFloat :=
  if l.isEmpty then NpFloat.nan else NpFloat.val (l.sum / l.length)

/-- The expression `np.mean([i["value"] for i in r.get("items", -1)[0]["readings"]])`
applied to one response `r`, as in lines 79-82. -/
def agg_one (r : Response) : Except AggError NpFloat :=
  match r.items with
  | none => Except.error AggError.typeError
  | some [] => Except.error AggError.indexError
  | some (b :: _) =>
    match b.readings with
    | none => Except.error AggError.keyError
    | some rs => Except.ok (np_mean (rs.map Reading.value))

/-- `agg_values` (lines 77-84): `avg_temp` is computed first, then
`avg_rh`, each as the NumPy mean over the `value` fields of the first
batch's readings. -/
def agg_values (temp rh : Response) : Except AggError (NpFloat × NpFloat) := do
  let avg_temp ← agg_one temp
  let avg_rh ← agg_one rh
  return (avg_temp, avg_rh)

/-- Does a response lack the shape `agg_values` expects?  True when the
`"items"` key is absent, the items list is empty, or the first batch has
no `"readings"` key — exactly the cases where line 79-82's expression
raises (`TypeError`, `IndexError`, `KeyError` respectively).  An empty
readings *list* is not a missing shape: the code accepts it. -/
def missing_shape (r : Response) : Bool :=
  match r.items with
  | none => true
  | some [] => true
  | some (b :: _) => b.readings.isNone

/-- `calc_wetbulb` (lines 86-100), in real-number semantics.  Note the
source computes `math.sqrt(rh) ** 3` where the published formula has
`RH^1.5`. -/
noncomputable def calc_wetbulb (temp rh : ℝ) : ℝ :=
  (temp * Real.arctan (0.151977 * Real.sqrt (rh + 8.313659)))
    + Real.arctan (temp + rh)
    - Real.arctan (rh - 1.676331)
    + (0.00391838 * (Real.sqrt rh ^ 3)) * Real.arctan (0.023101 * rh)
    - 4.686035

/-- The wet-bulb formula exactly as the specification writes it
(`RH^1.5` as a real power), for comparison with `calc_wetbulb`. -/
noncomputable def spec_stull_wetbulb (temp rh : ℝ) : ℝ :=
  temp * Real.arctan (0.151977 * Real.sqrt (rh + 8.313659))
    + Real.arctan (temp + rh)
    - Real.arctan (rh - 1.676331)
    + 0.00391838 * rh ^ ((1.5 : ℝ)) * Real.arctan (0.023101 * rh)
    - 4.686035

/-- `math.sqrt` raises `ValueError: math domain error` on negative input. -/
inductive PyMathError where
  | domainError
  deriving DecidableEq, Repr

/-- `calc_wetbulb` with Python exception semantics for `math.sqrt`: the
two square roots in the body, `sqrt(rh + 8.313659)` and `sqrt(rh)`, each
raise a math domain error when their argument is negative. -/
noncomputable def calc_wetbulb_py (temp rh : ℝ) : Except PyMathError ℝ :=
  if rh + 8.313659 < 0 ∨ rh < 0 then Except.error PyMathError.domainError
  else Except.ok (calc_wetbulb temp rh)

end WetbulbWarnings

namespace WetbulbWarnings

/-- Claim C1: `check_status` returns DANGER iff the wet-bulb input is at
least 35, WARNING iff it is in [31, 35), and SAFE iff it is below 31; in
particular at 35, 34.999999, 31 and 30.999999 it returns DANGER, WARNING,
WARNING and SAFE respectively (thresholds high-to-low, first match wins). -/
theorem check_status_thresholds (w : ℚ) :
    ((check_status w).1 = Status.DANGER ↔ 35 ≤ w) ∧
    ((check_status w).1 = Status.WARNING ↔ 31 ≤ w ∧ w < 35) ∧
    ((check_status w).1 = Status.SAFE ↔ w < 31) ∧
    (check_status 35).1 = Status.DANGER ∧
    (check_status (34999999/1000000)).1 = Status.WARNING ∧
    (check_status 31).1 = Status.WARNING ∧
    (check_status (30999999/1000000)).1 = Status.SAFE := by
  have key : ∀ v : ℚ, (check_status v).1 =
      (if 35 ≤ v then Status.DANGER else if 31 ≤ v then Status.WARNING
        else Status.SAFE) := by
    intro v
    simp [check_status, THRESHOLD_DANGER, THRESHOLD_WARNING]
  refine ⟨?_, ?_, ?_, ?_, ?_, ?_, ?_⟩
  · rw [key]
    by_cases h1 : (35 : ℚ) ≤ w
    · rw [if_pos h1]; simpa using h1
    · rw [if_neg h1]
      by_cases h2 : (31 : ℚ) ≤ w
      · rw [if_pos h2]; simp [h1]
      · rw [if_neg h2]; simp [h1]
  · rw [key]
    by_cases h1 : (35 : ℚ) ≤ w
    · rw [if_pos h1]
      simp only [iff_iff_implies_and_implies]
      constructor
      · intro h; cases h
      · rintro ⟨_, h35⟩; linarith
    · rw [if_neg h1]
      by_cases h2 : (31 : ℚ) ≤ w
      · rw [if_pos h2]
        simp only [true_iff, h2, true_and]
        exact lt_of_not_ge h1
      · rw [if_neg h2]
        simp only [iff_iff_implies_and_implies]
        constructor
        · intro h; cases h
        · rintro ⟨h31, _⟩; exact absurd h31 h2
  · rw [key]
    by_cases h1 : (35 : ℚ) ≤ w
    · rw [if_pos h1]
      simp only [iff_iff_implies_and_implies]
      constructor
      · intro h; cases h
      · intro h; linarith
    · rw [if_neg h1]
      by_cases h2 : (31 : ℚ) ≤ w
      · rw [if_pos h2]
        simp only [iff_iff_implies_and_implies]
        constructor
        · intro h; cases h
        · intro h; linarith
      · rw [if_neg h2]
        simpa using lt_of_not_ge h2
  · rw [key, if_pos (by norm_num)]
  · rw [key, if_neg (by norm_num), if_pos (by norm_num)]
  · rw [key, if_neg (by norm_num), if_pos (by norm_num)]
  · rw [key, if_neg (by norm_num), if_neg (by norm_num)]

/-- A nonempty list of rationals has a least element. -/
lemma exists_le_forall (l : List ℚ) (h : l ≠ []) :
    ∃ a ∈ l, ∀ x ∈ l, a ≤ x := by
  induction l with
  | nil => exact absurd rfl h
  | cons x xs ih =>
    by_cases hxs : xs = []
    · subst hxs
      exact ⟨x, by simp, by simp⟩
    · obtain ⟨a, ha, hle⟩ := ih hxs
      by_cases hxa : x ≤ a
      · refine ⟨x, by simp, ?_⟩
        intro y hy
        rcases List.mem_cons.mp hy with rfl | hy
        · exact le_refl y
        · exact le_trans hxa (hle y hy)
      · refine ⟨a, List.mem_cons_of_mem _ ha, ?_⟩
        intro y hy
        rcases List.mem_cons.mp hy with rfl | hy
        · exact le_of_lt (lt_of_not_ge hxa)
        · exact hle y hy

/-- A nonempty list of rationals has a greatest element. -/
lemma exists_forall_le (l : List ℚ) (h : l ≠ []) :
    ∃ b ∈ l, ∀ x ∈ l, x ≤ b := by
  induction l with
  | nil => exact absurd rfl h
  | cons x xs ih =>
    by_cases hxs : xs = []
    · subst hxs
      exact ⟨x, by simp, by simp⟩
    · obtain ⟨b, hb, hle⟩ := ih hxs
      by_cases hxb : b ≤ x
      · refine ⟨x, by simp, ?_⟩
        intro y hy
        rcases List.mem_cons.mp hy with rfl | hy
        · exact le_refl y
        · exact le_trans (hle y hy) hxb
      · refine ⟨b, List.mem_cons_of_mem _ hb, ?_⟩
        intro y hy
        rcases List.mem_cons.mp hy with rfl | hy
        · exact le_of_lt (lt_of_not_ge hxb)
        · exact hle y hy

/-- A common lower bound of a list, scaled by its length, bounds its sum. -/
lemma length_mul_le_sum (l : List ℚ) (y : ℚ) (h : ∀ x ∈ l, y ≤ x) :
    (l.length : ℚ) * y ≤ l.sum := by
  induction l with
  | nil => simp
  | cons x xs ih =>
    have hx : y ≤ x := h x (by simp)
    have hxs := ih fun z hz => h z (List.mem_cons_of_mem _ hz)
    simp only [List.length_cons, List.sum_cons, Nat.cast_add, Nat.cast_one]
    nlinarith

/-- A list's sum is bounded by a common upper bound scaled by its length. -/
lemma sum_le_length_mul (l : List ℚ) (y : ℚ) (h : ∀ x ∈ l, x ≤ y) :
    l.sum ≤ (l.length : ℚ) * y := by
  induction l with
  | nil => simp
  | cons x xs ih =>
    have hx : x ≤ y := h x (by simp)
    have hxs := ih fun z hz => h z (List.mem_cons_of_mem _ hz)
    simp only [List.length_cons, List.sum_cons, Nat.cast_add, Nat.cast_one]
    nlinarith

/-- On a nonempty list, `np_mean` returns a number between the list's
minimum and maximum. -/
lemma np_mean_between (l : List ℚ) (h : l ≠ []) :
    ∃ m, np_mean l = NpFloat.val m ∧
      (∃ a ∈ l, a ≤ m) ∧ (∃ b ∈ l, m ≤ b) := by
  have hlen : (0 : ℚ) < l.length := by
    have := List.length_pos.mpr h
    exact_mod_cast this
  refine ⟨l.sum / l.length, ?_, ?_, ?_⟩
  · simp [np_mean, h]
  · obtain ⟨a, ha, hle⟩ := exists_le_forall l h
    refine ⟨a, ha, ?_⟩
    rw [le_div_iff₀ hlen]
    have := length_mul_le_sum l a hle
    linarith
  · obtain ⟨b, hb, hle⟩ := exists_forall_le l h
    refine ⟨b, hb, ?_⟩
    rw [div_le_iff₀ hlen]
    have := sum_le_length_mul l b hle
    linarith

/-- Claim C3: `agg_values` returns, for each metric, the arithmetic mean of
the `value` fields of the readings of the first batch of that metric's
response; the later batches, the timestamps and the station identities do
not influence the result. -/
theorem agg_values_first_batch_mean (tts rts : String) (ts rs : List Batch)
    (tr rr : List Reading) (htr : tr ≠ []) (hrr : rr ≠ []) :
    agg_values (Response.mk (some (Batch.mk tts (some tr) :: ts)))
        (Response.mk (some (Batch.mk rts (some rr) :: rs)))
      = Except.ok
          (NpFloat.val ((tr.map Reading.value).sum / (tr.length : ℚ)),
           NpFloat.val ((rr.map Reading.value).sum / (rr.length : ℚ))) := by
  have htr' : tr.map Reading.value ≠ [] := by simpa using htr
  have hrr' : rr.map Reading.value ≠ [] := by simpa using hrr
  simp only [agg_values, agg_one, np_mean, List.isEmpty_eq_false.mpr htr',
    List.isEmpty_eq_false.mpr hrr', Bool.false_eq_true, if_false,
    List.length_map]
  rfl

/-- Witness for C3: readings `[30, 32]` and `[70, 80]` aggregate to
`(31, 75)`. -/
theorem agg_values_first_batch_mean_witness :
    ([Reading.mk "S1" 30, Reading.mk "S2" 32] ≠ ([] : List Reading)) ∧
    ([Reading.mk "S3" 70, Reading.mk "S4" 80] ≠ ([] : List Reading)) ∧
    agg_values
        (Response.mk (some [Batch.mk "2024-01-01T00:00:00"
          (some [Reading.mk "S1" 30, Reading.mk "S2" 32])]))
        (Response.mk (some [Batch.mk "2024-01-01T00:00:00"
          (some [Reading.mk "S3" 70, Reading.mk "S4" 80])]))
      = Except.ok (NpFloat.val 31, NpFloat.val 75) := by
  refine ⟨by simp, by simp, ?_⟩
  rw [agg_values_first_batch_mean "2024-01-01T00:00:00" "2024-01-01T00:00:00"
    [] [] _ _ (by simp) (by simp)]
  norm_num [Reading.value]

/-- Counterexample to C4: aggregation over an empty reading list does not
fail — it returns a value, with NaN (the NumPy mean of an empty slice) in
the empty metric's slot. -/
theorem agg_values_empty_counterexample :
    agg_values
        (Response.mk (some [Batch.mk "2024-06-01T12:00:00" (some [])]))
        (Response.mk (some [Batch.mk "2024-06-01T12:00:00"
          (some [Reading.mk "S5" 5])]))
      = Except.ok (NpFloat.nan, NpFloat.val 5) := by
  have h5 : np_mean [(5 : ℚ)] = NpFloat.val 5 := by
    simp [np_mean]
  simp only [agg_values, agg_one, List.map_cons, List.map_nil, h5]
  rfl

/-- Claim C4 as amended: aggregation invoked on an empty reading sequence
returns NaN for that metric (NumPy's mean of an empty list) instead of
raising an `EmptyInputError`. -/
theorem agg_values_empty_readings_nan (tts rts : String) (ts rs : List Batch) :
    agg_values (Response.mk (some (Batch.mk tts (some []) :: ts)))
        (Response.mk (some (Batch.mk rts (some []) :: rs)))
      = Except.ok (NpFloat.nan, NpFloat.nan) := rfl

/-- Counterexample to C7: a response whose reading list is present but
empty does not surface an error — `agg_values` returns ok with NaN. -/
theorem agg_values_empty_list_no_error :
    agg_values
        (Response.mk (some [Batch.mk "2024-07-01T00:00:00" (some [])]))
        (Response.mk (some [Batch.mk "2024-07-01T00:00:00" (some [])]))
      = Except.ok (NpFloat.nan, NpFloat.nan) := rfl

/-- A response with a missing shape makes `agg_one` raise. -/
lemma agg_one_error_of_missing_shape (r : Response)
    (h : missing_shape r = true) : ∃ e, agg_one r = Except.error e := by
  rcases r with ⟨items⟩
  match items with
  | none => exact ⟨AggError.typeError, rfl⟩
  | some [] => exact ⟨AggError.indexError, rfl⟩
  | some (b :: bs) =>
    match hb : b.readings with
    | none => exact ⟨AggError.keyError, by simp [agg_one, hb]⟩
    | some rs => simp [missing_shape, hb] at h

/-- Claim C7 as amended: a response missing the expected shape (no items
key, empty items list, or first batch without a readings key) makes the
aggregation raise immediately (a `TypeError`/`IndexError`/`KeyError`, not
a dedicated `MalformedResponseError` type), and no aggregate is produced;
an empty reading *list*, by contrast, is accepted and yields NaN. -/
theorem agg_values_missing_shape_error (temp rh : Response)
    (h : missing_shape temp = true ∨ missing_shape rh = true) :
    ∃ e, agg_values temp rh = Except.error e := by
  rcases h with h | h
  · obtain ⟨e, he⟩ := agg_one_error_of_missing_shape temp h
    exact ⟨e, by simp only [agg_values, he]; rfl⟩
  · rcases hat : agg_one temp with e' | v
    · exact ⟨e', by simp only [agg_values, hat]; rfl⟩
    · obtain ⟨e, he⟩ := agg_one_error_of_missing_shape rh h
      exact ⟨e, by simp only [agg_values, hat, he]; rfl⟩

/-- Witness for the amended C7: a response with no items key errors. -/
theorem agg_values_missing_shape_error_witness :
    (missing_shape (Response.mk none) = true ∨
      missing_shape (Response.mk none) = true) ∧
    ∃ e, agg_values (Response.mk none) (Response.mk none)
      = Except.error e :=
  ⟨Or.inl rfl, agg_values_missing_shape_error _ _ (Or.inl rfl)⟩

/-- Claim C8: on every nonempty reading sequence the aggregate lies between
the minimum and the maximum of the input `value` fields. -/
theorem aggregate_between_min_max (tts : String) (ts : List Batch)
    (rs : List Reading) (h : rs ≠ []) :
    ∃ m, agg_one (Response.mk (some (Batch.mk tts (some rs) :: ts)))
        = Except.ok (NpFloat.val m) ∧
      (∃ a ∈ rs.map Reading.value, a ≤ m) ∧
      (∃ b ∈ rs.map Reading.value, m ≤ b) := by
  have h' : rs.map Reading.value ≠ [] := by simpa using h
  obtain ⟨m, hm, hlo, hhi⟩ := np_mean_between (rs.map Reading.value) h'
  exact ⟨m, by simp [agg_one, hm], hlo, hhi⟩

/-- Witness for C8: the mean of `[1, 3]` exists and is bounded by a member
below and a member above. -/
theorem aggregate_between_min_max_witness :
    ([Reading.mk "S1" 1, Reading.mk "S2" 3] ≠ ([] : List Reading)) ∧
    ∃ m, agg_one (Response.mk (some [Batch.mk "t0"
          (some [Reading.mk "S1" 1, Reading.mk "S2" 3])]))
        = Except.ok (NpFloat.val m) ∧
      (∃ a ∈ [Reading.mk "S1" 1, Reading.mk "S2" 3].map Reading.value, a ≤ m) ∧
      (∃ b ∈ [Reading.mk "S1" 1, Reading.mk "S2" 3].map Reading.value, m ≤ b) :=
  ⟨by simp, aggregate_between_min_max "t0" [] _ (by simp)⟩

/-- Claim C2: for every temperature and every relative humidity RH ≥ 0,
`calc_wetbulb` computes exactly the Stull 2011 expression as written in
the specification — the code's `sqrt(rh) ** 3` coincides with the
formula's `RH^1.5` on the valid domain. -/
theorem calc_wetbulb_eq_spec_formula (temp rh : ℝ) (h : 0 ≤ rh) :
    calc_wetbulb temp rh = spec_stull_wetbulb temp rh := by
  unfold calc_wetbulb spec_stull_wetbulb
  have hs : Real.sqrt rh ^ 3 = rh ^ ((1.5 : ℝ)) := by
    rw [Real.sqrt_eq_rpow, ← Real.rpow_natCast (rh ^ ((1 : ℝ) / 2)) 3,
      ← Real.rpow_mul h]
    norm_num
  rw [hs]

/-- Witness for C2 at temperature 0 and relative humidity 0. -/
theorem calc_wetbulb_eq_spec_formula_witness :
    (0 : ℝ) ≤ 0 ∧ calc_wetbulb 0 0 = spec_stull_wetbulb 0 0 :=
  ⟨le_refl 0, calc_wetbulb_eq_spec_formula 0 0 (le_refl 0)⟩

/-- Claim C5: calling the wet-bulb calculation with any relative humidity
below 0 (in particular −1) raises a math domain error (Python's
`ValueError` from `math.sqrt` on a negative argument) instead of silently
producing a NaN or complex value. -/
theorem calc_wetbulb_py_neg_rh_error (temp rh : ℝ) (h : rh < 0) :
    calc_wetbulb_py temp rh = Except.error PyMathError.domainError := by
  unfold calc_wetbulb_py
  rw [if_pos]
  exact Or.inr h

/-- Witness for C5 at temperature 0 and relative humidity −1. -/
theorem calc_wetbulb_py_neg_rh_error_witness :
    (-1 : ℝ) < 0 ∧
    calc_wetbulb_py 0 (-1) = Except.error PyMathError.domainError :=
  ⟨by norm_num, calc_wetbulb_py_neg_rh_error 0 (-1) (by norm_num)⟩

/-- Claim C9: for fixed relative humidity RH ≥ 0, `calc_wetbulb` is
monotonically non-decreasing in the temperature argument. -/
theorem calc_wetbulb_mono_in_temp (rh T1 T2 : ℝ) (hrh : 0 ≤ rh)
    (h : T1 ≤ T2) : calc_wetbulb T1 rh ≤ calc_wetbulb T2 rh := by
  unfold calc_wetbulb
  have ha : 0 ≤ Real.arctan (0.151977 * Real.sqrt (rh + 8.313659)) := by
    rw [← Real.arctan_zero]
    exact Real.arctan_strictMono.monotone (by positivity)
  have hb : Real.arctan (T1 + rh) ≤ Real.arctan (T2 + rh) :=
    Real.arctan_strictMono.monotone (by linarith)
  have hc : T1 * Real.arctan (0.151977 * Real.sqrt (rh + 8.313659))
      ≤ T2 * Real.arctan (0.151977 * Real.sqrt (rh + 8.313659)) :=
    mul_le_mul_of_nonneg_right h ha
  linarith

/-- Witness for C9: at RH = 0 the wet-bulb value at temperature 0 is at
most the wet-bulb value at temperature 1. -/
theorem calc_wetbulb_mono_in_temp_witness :
    (0 : ℝ) ≤ 0 ∧ (0 : ℝ) ≤ 1 ∧ calc_wetbulb 0 0 ≤ calc_wetbulb 1 0 :=
  ⟨le_refl 0, by norm_num, calc_wetbulb_mono_in_temp 0 0 1 (le_refl 0) (by norm_num)⟩

/-- Claim C6: for every numeric input, `check_status` never returns the
`NONE` tier; the placeholder is unobservable by callers. -/
theorem check_status_never_none (w : ℚ) :
    (check_status w).1 ≠ Status.NONE := by
  unfold check_status
  by_cases h1 : THRESHOLD_DANGER ≤ w <;> by_cases h2 : THRESHOLD_WARNING ≤ w <;>
    simp [h1, h2]

/-- Claim C10: the guidance lookup in `check_status` is always in bounds:
the returned tier's enum value is 0, 1 or 2 (never the out-of-range 3 of
`NONE`), and the guidance returned is exactly the `status_message` record
at that position. -/
theorem check_status_lookup_in_bounds (w : ℚ) :
    ((check_status w).1.value = 0 ∨ (check_status w).1.value = 1 ∨
      (check_status w).1.value = 2) ∧
    ∃ g, (check_status w).2 = some g ∧
      status_message[(check_status w).1.value]? = some g := by
  unfold check_status
  by_cases h1 : THRESHOLD_DANGER ≤ w <;> by_cases h2 : THRESHOLD_WARNING ≤ w <;>
    simp [h1, h2, Status.value, status_message]

end WetbulbWarnings
